import Mathlib

/-!
# Verification of the Mesh allocator core (`src/global_heap.cc`)

A shallow embedding of `GlobalHeap`'s methods.  External collaborators
(the arena, the bins, the pairing algorithm in `meshing.h`) appear either
as input parameters or as abstract trace events; calls into code that is
not part of `global_heap.cc` are recorded as events rather than expanded.
Definitions follow the C++ source line by line; a few callees that live in
headers outside the provided source are modelled from the specification
and are marked as such in their doc comments.
-/

namespace MeshVerify

/-- Modelled from the spec: `kMaxMeshes` is the cap on the number of original
spans folded into one MiniHeap (`common.h`, not under `src/`); its numeric
value is a tuned constant, taken here as 256.  The claims about it only
compare against it, so its exact value does not affect their truth. -/
def kMaxMeshes : Nat := 256

/-- MiniHeap metadata, as described by the data model: occupancy bitmap,
size class, slot capacity, mesh-group state.  `id` stands for the object's
identity (used to record which MiniHeap a trace event touched), and `spans`
is the list of spans folded into this MiniHeap, itself included, in the
order `forEachMeshed` visits them. -/
structure MiniHeap where
  id : Nat
  sizeClass : Nat
  maxCount : Nat
  bitmap : List Bool
  meshed : Bool
  meshCount : Nat
  spans : List Nat
  deriving DecidableEq

/-- `MiniHeap::inUseCount()`: derived count of set bits in the occupancy
bitmap. -/
def MiniHeap.inUseCount (mh : MiniHeap) : Nat :=
  mh.bitmap.count true

/-- `MiniHeap::isMeshed()`. -/
def MiniHeap.isMeshed (mh : MiniHeap) : Bool :=
  mh.meshed

/-- `MiniHeap::free(arenaBegin, ptr)`: clears the occupancy bit of the slot
`ptr` resolves to.  The pointer-to-slot offset computation lives in
`miniheap.h`, outside the provided source, so the slot index is taken as a
parameter. -/
def MiniHeap.freeSlot (mh : MiniHeap) (slot : Nat) : MiniHeap :=
  { mh with bitmap := mh.bitmap.set slot false }

/-- Modelled from the spec: `MiniHeap::isMeshingCandidate()` (in
`miniheap.h`, not under `src/`): a meshing candidate is partially full
(neither empty nor full), not a large-object span, and not already at
`kMaxMeshes` depth. -/
def MiniHeap.isMeshingCandidate (mh : MiniHeap) : Bool :=
  decide (1 < mh.maxCount) && decide (0 < mh.inUseCount) &&
    decide (mh.inUseCount < mh.maxCount) && decide (mh.meshCount < kMaxMeshes)

/-- Trace events of the free path (`GlobalHeap::free` / `freeFor`).  Calls
into collaborators outside `global_heap.cc` are recorded as events:
`freeMiniheap` is `freeMiniheapLocked(mh, false)`, `setEffective` the store
to `_lastMeshEffective`, `clearBit mh slot` a call `mh->free(arenaBegin(),
ptr)`, `postFree` the Bin callback, `flushBin` `flushBinLocked`,
`maybeMesh` the throttled mesh attempt after the lock is dropped,
`abortEvent` a failed `hard_assert`, and `debugLog` the debug-build
diagnostic for an untracked pointer. -/
inductive FreeEvent where
  | freeMiniheap (mhId : Nat)
  | setEffective
  | clearBit (mhId : Nat) (slot : Nat)
  | postFree (sizeClass : Nat) (remaining : Nat)
  | flushBin (sizeClass : Nat)
  | maybeMesh
  | abortEvent
  | debugLog
  deriving DecidableEq

/-- The tail of `GlobalHeap::freeFor` after the bitmap update: record
`remaining`, call the Bin's `postFree` (its boolean result `shouldFlush`
is computed by Bin code outside `global_heap.cc` and is a parameter),
flush the bin if asked, and after the lock is released attempt a mesh pass
iff objects remain. -/
def freeForTail (sizeClass remaining : Nat) (shouldFlush : Bool) : List FreeEvent :=
  [FreeEvent.postFree sizeClass remaining] ++
    (if shouldFlush then [FreeEvent.flushBin sizeClass] else []) ++
    (if 0 < remaining then [FreeEvent.maybeMesh] else [])

/-- `GlobalHeap::freeFor(mh, ptr)`, as the trace of events it performs.
`ptrNull` is whether `ptr == nullptr`; `mh` is the MiniHeap argument
(`none` for `nullptr`); `slot` is the slot `ptr` resolves to inside `mh`;
`curOwner`/`curSlot` are the result of the re-resolution
`miniheapFor(ptr)` performed only in the concurrent-mesh race branch;
`shouldFlush` is the result of the Bin's `postFree`.  A failed
`hard_assert` aborts: the trace ends at `abortEvent`. -/
def freeFor (ptrNull : Bool) (mh : Option MiniHeap) (slot : Nat)
    (curOwner : MiniHeap) (curSlot : Nat) (shouldFlush : Bool) : List FreeEvent :=
  if ptrNull then []
  else
    match mh with
    | none => []
    | some m =>
      if m.maxCount = 1 then
        [FreeEvent.freeMiniheap m.id]
      else
        let m1 := m.freeSlot slot
        let pre := [FreeEvent.setEffective, FreeEvent.clearBit m.id slot]
        if m1.isMeshed then
          if curOwner.isMeshed then
            pre ++ [FreeEvent.abortEvent]
          else
            let c1 := curOwner.freeSlot curSlot
            pre ++ [FreeEvent.clearBit curOwner.id curSlot] ++
              freeForTail curOwner.sizeClass c1.inUseCount shouldFlush
        else
          pre ++ freeForTail m.sizeClass m1.inUseCount shouldFlush

/-- `GlobalHeap::free(ptr)`: resolve `ptr` via `miniheapFor` (its result
`resolved` is a parameter, the reverse map being maintained by the arena);
if unresolved, log in debug builds unless the pointer is null, and return;
otherwise delegate to `freeFor`. -/
def free (debugBuild ptrNull : Bool) (resolved : Option MiniHeap) (slot : Nat)
    (curOwner : MiniHeap) (curSlot : Nat) (shouldFlush : Bool) : List FreeEvent :=
  match resolved with
  | none => if debugBuild && !ptrNull then [FreeEvent.debugLog] else []
  | some m => freeFor ptrNull (some m) slot curOwner curSlot shouldFlush

/-- A concrete standalone MiniHeap used by witnesses. -/
def sampleHeap : MiniHeap :=
  { id := 7, sizeClass := 3, maxCount := 4, bitmap := [true, true, false, false],
    meshed := false, meshCount := 1, spans := [70] }

/-- A concrete large-object MiniHeap (`maxCount == 1`) used by witnesses. -/
def sampleLarge : MiniHeap :=
  { id := 9, sizeClass := 0, maxCount := 1, bitmap := [true],
    meshed := false, meshCount := 1, spans := [90] }

/-- C5: with non-null `mh` and `ptr` and `mh->maxCount() == 1`, `freeFor`
frees the whole miniheap and returns at once: the trace is exactly the
`freeMiniheapLocked` call, so no occupancy bit is cleared, the Bin's
`postFree` is not called, and no mesh pass is attempted. -/
theorem freeFor_large_object (m : MiniHeap) (slot : Nat) (curOwner : MiniHeap)
    (curSlot : Nat) (shouldFlush : Bool) (hmax : m.maxCount = 1) :
    freeFor false (some m) slot curOwner curSlot shouldFlush =
      [FreeEvent.freeMiniheap m.id] := by
  simp [freeFor, hmax]

/-- C5 witness: the large-object path evaluated on a concrete MiniHeap. -/
theorem freeFor_large_object_witness :
    freeFor false (some sampleLarge) 0 sampleHeap 0 true =
      [FreeEvent.freeMiniheap 9] :=
  freeFor_large_object sampleLarge 0 sampleHeap 0 true (by decide)

/-- C6: when `miniheapFor(ptr)` resolves to no owning MiniHeap, `free`
performs at most the debug-build diagnostic — never a bitmap mutation, a
Bin callback, a flush, a miniheap release, or an abort — and when the
pointer is null the trace is empty in every build (a silent no-op). -/
theorem free_untracked (debugBuild ptrNull : Bool) (resolved : Option MiniHeap)
    (slot : Nat) (curOwner : MiniHeap) (curSlot : Nat) (shouldFlush : Bool)
    (h : resolved = none) :
    (∀ e ∈ free debugBuild ptrNull resolved slot curOwner curSlot shouldFlush,
        e = FreeEvent.debugLog) ∧
      (ptrNull = true →
        free debugBuild ptrNull resolved slot curOwner curSlot shouldFlush = []) := by
  subst h
  constructor
  · intro e he
    cases debugBuild <;> cases ptrNull <;> simp_all [free]
  · intro hp
    subst hp
    cases debugBuild <;> simp [free]

/-- C6 witness: a debug-build free of an untracked non-null pointer only
logs, and a null pointer is silent. -/
theorem free_untracked_witness :
    (∀ e ∈ free true false none 0 sampleHeap 0 false, e = FreeEvent.debugLog) ∧
      free true true none 0 sampleHeap 0 false = [] := by
  refine ⟨(free_untracked true false none 0 sampleHeap 0 false rfl).1, ?_⟩
  exact (free_untracked true true none 0 sampleHeap 0 false rfl).2 rfl

/-- C8: in `freeFor`, when the MiniHeap turns out meshed after the bitmap
update, `ptr` is re-resolved and the bit is cleared on the current owner;
if the re-resolved owner were itself meshed the `hard_assert` fires and
the trace ends in an abort; and under the invariant that re-resolution
never yields a meshed MiniHeap, the abort branch is unreachable. -/
theorem freeFor_meshed_race (m : MiniHeap) (slot : Nat) (curOwner : MiniHeap)
    (curSlot : Nat) (shouldFlush : Bool) (hmax : m.maxCount ≠ 1)
    (hmeshed : m.isMeshed = true) :
    (curOwner.isMeshed = false →
        FreeEvent.clearBit curOwner.id curSlot ∈
            freeFor false (some m) slot curOwner curSlot shouldFlush ∧
          FreeEvent.abortEvent ∉
            freeFor false (some m) slot curOwner curSlot shouldFlush) ∧
      (curOwner.isMeshed = true →
        freeFor false (some m) slot curOwner curSlot shouldFlush =
          [FreeEvent.setEffective, FreeEvent.clearBit m.id slot,
            FreeEvent.abortEvent]) := by
  have hfm : (m.freeSlot slot).isMeshed = true := hmeshed
  have htail : ∀ sc r (f : Bool), FreeEvent.abortEvent ∉ freeForTail sc r f := by
    intro sc r f
    cases f <;> by_cases h0 : 0 < r <;> simp [freeForTail, h0]
  constructor
  · intro hcur
    constructor
    · simp [freeFor, hmax, hfm, hcur, freeForTail]
    · simp [freeFor, hmax, hfm, hcur, htail]
  · intro hcur
    simp [freeFor, hmax, hfm, hcur]

/-- C8 witness: the race branch evaluated on a concrete meshed MiniHeap,
for a non-meshed and for a meshed re-resolved owner. -/
theorem freeFor_meshed_race_witness :
    (FreeEvent.clearBit 7 1 ∈
        freeFor false (some { sampleLarge with maxCount := 4, meshed := true })
          0 sampleHeap 1 false ∧
      FreeEvent.abortEvent ∉
        freeFor false (some { sampleLarge with maxCount := 4, meshed := true })
          0 sampleHeap 1 false) ∧
      freeFor false (some { sampleLarge with maxCount := 4, meshed := true })
          0 { sampleHeap with meshed := true } 1 false =
        [FreeEvent.setEffective, FreeEvent.clearBit 9 0, FreeEvent.abortEvent] := by
  refine ⟨(freeFor_meshed_race _ 0 sampleHeap 1 false (by decide) (by decide)).1 (by decide), ?_⟩
  exact (freeFor_meshed_race _ 0 { sampleHeap with meshed := true } 1 false
    (by decide) (by decide)).2 (by decide)

/-! ## `GlobalHeap::malloc` -/

/-- `kPageSize`: the 4 KiB page size (defined in `common.h`, outside the
provided source; the value 4096 also appears literally in
`GlobalHeap::dumpStats`). -/
def kPageSize : Nat := 4096

/-- `INT_MAX` of the platform: 2^31 - 1. -/
def intMax : Nat := 2 ^ 31 - 1

/-- The modulus of `size_t` arithmetic (64-bit). -/
def sizeTMod : Nat := 2 ^ 64

/-- Modelled from the spec: `PageCount(sz)` (in `common.h`, not under
`src/`) computes the number of pages needed for `sz` bytes, i.e. the
ceiling of `sz / kPageSize`, in `size_t` arithmetic. -/
def PageCount (sz : Nat) : Nat :=
  ((sz + kPageSize - 1) % sizeTMod) / kPageSize

/-- Result of `GlobalHeap::malloc`: a null pointer, a delegation
`pageAlignedAlloc(alignment, pageCount)` to the arena, or the debug-build
abort for a size at or below `kMaxSize`. -/
inductive MallocResult where
  | nullPtr
  | pageAligned (alignment pageCount : Nat)
  | abortResult
  deriving DecidableEq

/-- `GlobalHeap::malloc(sz)`.  `kMaxSize` (the small-object ceiling, a
constant outside the provided source) and the build flavour are
parameters; in debug builds a size at or below `kMaxSize` aborts.  The
overflow guard compares `pageCount * kPageSize` (a `size_t` product)
against `INT_MAX` and returns null when it exceeds it. -/
def malloc (debugBuild : Bool) (kMaxSize sz : Nat) : MallocResult :=
  if debugBuild && decide (sz ≤ kMaxSize) then
    MallocResult.abortResult
  else
    let pageCount := PageCount sz
    if intMax < pageCount * kPageSize % sizeTMod then
      MallocResult.nullPtr
    else
      MallocResult.pageAligned 1 pageCount

/-- C7: for every serviced size (above the small-object ceiling), whenever
the computed page count times the page size exceeds `INT_MAX`, `malloc`
returns null in every build — the overflow is an allocation failure
reported to the caller, not an abort. -/
theorem malloc_overflow_null (debugBuild : Bool) (kMaxSize sz : Nat)
    (hserviced : kMaxSize < sz)
    (hoverflow : intMax < PageCount sz * kPageSize % sizeTMod) :
    malloc debugBuild kMaxSize sz = MallocResult.nullPtr := by
  have hns : ¬ sz ≤ kMaxSize := Nat.not_le_of_lt hserviced
  simp [malloc, hns, hoverflow]

/-- C7 witness: a 2 GiB request overflows the guard and both builds return
null. -/
theorem malloc_overflow_null_witness :
    malloc true 16384 (2 ^ 31) = MallocResult.nullPtr ∧
      malloc false 16384 (2 ^ 31) = MallocResult.nullPtr :=
  ⟨malloc_overflow_null true 16384 (2 ^ 31) (by norm_num)
      (by norm_num [PageCount, kPageSize, sizeTMod, intMax]),
    malloc_overflow_null false 16384 (2 ^ 31) (by norm_num)
      (by norm_num [PageCount, kPageSize, sizeTMod, intMax])⟩

/-! ## `GlobalHeap::mallctl` -/

/-- The per-bin quantities `mallctl`'s stats branches read from a
`littleheaps` Bin (the Bin implementation lives outside the provided
source, so these are inputs). -/
structure BinStat where
  nonEmptyCount : Nat
  objectSize : Nat
  objectCount : Nat
  allocatedObjectCount : Nat
  deriving DecidableEq

/-- The state `mallctl` can read or write: `_meshPeriod`, the measured
PSS in KiB (`internal::measurePssKiB`, an external collaborator), and the
Bin array. -/
structure CtlState where
  meshPeriod : Nat
  pssKiB : Nat
  bins : List BinStat
  deriving DecidableEq

/-- Side effects `mallctl` can trigger on collaborators: `scavenge(true)`
and `meshAllSizeClasses()`. -/
inductive CtlEvent where
  | scavenge
  | compact
  deriving DecidableEq

/-- Outcome of a `mallctl` call: the return code, the value written
through `oldp` (if any), the resulting state, and the collaborator calls
made. -/
structure CtlResult where
  ret : Int
  written : Option Nat
  state : CtlState
  events : List CtlEvent
  deriving DecidableEq

/-- `sizeof(size_t)` on the platform: 8 bytes. -/
def sizeofSizeT : Nat := 8

/-- The guard `!oldp || !oldlenp || *oldlenp < sizeof(size_t)` at the top
of `mallctl`: `oldpNull` is whether `oldp == nullptr` and `oldlenp` is
`none` for a null length pointer, `some len` for the pointed-to length. -/
def malformedBuf (oldpNull : Bool) (oldlenp : Option Nat) : Bool :=
  oldpNull || oldlenp.isNone || decide (oldlenp.getD 0 < sizeofSizeT)

/-- The `stats.active` sum: over all bins with a nonzero non-empty count,
`count * objectSize() * objectCount()`. -/
def statsActive (bins : List BinStat) : Nat :=
  bins.foldl
    (fun sz b => if b.nonEmptyCount = 0 then sz
      else sz + b.nonEmptyCount * b.objectSize * b.objectCount) 0

/-- The `stats.allocated` sum: over all bins with a nonzero non-empty
count, `objectSize() * allocatedObjectCount()`. -/
def statsAllocated (bins : List BinStat) : Nat :=
  bins.foldl
    (fun sz b => if b.nonEmptyCount = 0 then sz
      else sz + b.objectSize * b.allocatedObjectCount) 0

/-- `GlobalHeap::mallctl(name, oldp, oldlenp, newp, newlen)`.  `newp` is
`none` for a null new-value pointer and `some v` for the pointed-to
value; writes through `oldp` are recorded in `written`. -/
def mallctl (st : CtlState) (name : String) (oldpNull : Bool)
    (oldlenp : Option Nat) (newp : Option Nat) (newlen : Nat) : CtlResult :=
  if malformedBuf oldpNull oldlenp then
    ⟨-1, none, st, []⟩
  else if name = "mesh.check_period" then
    let w := some st.meshPeriod
    match newp with
    | none => ⟨-1, w, st, []⟩
    | some v =>
      if newlen < sizeofSizeT then ⟨-1, w, st, []⟩
      else ⟨0, w, { st with meshPeriod := v }, []⟩
  else if name = "mesh.scavenge" then
    ⟨0, none, st, [CtlEvent.scavenge]⟩
  else if name = "mesh.compact" then
    ⟨0, none, st, [CtlEvent.compact, CtlEvent.scavenge]⟩
  else if name = "arena" then
    ⟨0, none, st, []⟩
  else if name = "stats.resident" then
    ⟨0, some (st.pssKiB * 1024), st, []⟩
  else if name = "stats.active" then
    ⟨0, some (statsActive st.bins), st, []⟩
  else if name = "stats.allocated" then
    ⟨0, some (statsAllocated st.bins), st, []⟩
  else
    ⟨0, none, st, []⟩

/-- The names `mallctl` recognizes (the strings it compares against). -/
def recognizedNames : List String :=
  ["mesh.check_period", "mesh.scavenge", "mesh.compact", "arena",
    "stats.resident", "stats.active", "stats.allocated"]

/-- C9: with a well-formed output buffer, any unrecognized name is a
no-op returning 0 — nothing written, state unchanged, no collaborator
calls; and any malformed output buffer (null `oldp`, null `oldlenp`, or
undersized `*oldlenp`) yields the distinct error code -1, again with no
effect (in particular no abort: the call is never fatal). -/
theorem mallctl_unrecognized_or_malformed (st : CtlState) (name : String)
    (oldpNull : Bool) (oldlenp : Option Nat) (newp : Option Nat) (newlen : Nat) :
    (malformedBuf oldpNull oldlenp = false → name ∉ recognizedNames →
        mallctl st name oldpNull oldlenp newp newlen = ⟨0, none, st, []⟩) ∧
      (malformedBuf oldpNull oldlenp = true →
        mallctl st name oldpNull oldlenp newp newlen = ⟨-1, none, st, []⟩) := by
  constructor
  · intro hok hname
    simp only [recognizedNames, List.mem_cons, List.not_mem_nil, or_false,
      not_or] at hname
    obtain ⟨h1, h2, h3, h4, h5, h6, h7⟩ := hname
    simp [mallctl, hok, h1, h2, h3, h4, h5, h6, h7]
  · intro hbad
    simp [mallctl, hbad]

/-- C9 witness: an unrecognized name with a valid buffer succeeds with no
effect, and a null output pointer fails with -1. -/
theorem mallctl_unrecognized_or_malformed_witness :
    mallctl ⟨10, 5, []⟩ "bogus.name" false (some 8) none 0 = ⟨0, none, ⟨10, 5, []⟩, []⟩ ∧
      mallctl ⟨10, 5, []⟩ "mesh.scavenge" true (some 8) none 0 = ⟨-1, none, ⟨10, 5, []⟩, []⟩ := by
  constructor
  · exact (mallctl_unrecognized_or_malformed ⟨10, 5, []⟩ "bogus.name" false
      (some 8) none 0).1 (by decide) (by decide)
  · exact (mallctl_unrecognized_or_malformed ⟨10, 5, []⟩ "mesh.scavenge" true
      (some 8) none 0).2 (by decide)

/-- C10: `mallctl("mesh.check_period", ...)` with a valid output buffer
but a null `newp` or an undersized `newlen` first writes the current mesh
period through `oldp` and then returns -1: the error return carries a
partial effect, and a pure read of the period always reports failure. -/
theorem mallctl_period_read_fails (st : CtlState) (oldlen : Nat)
    (newp : Option Nat) (newlen : Nat) (hlen : sizeofSizeT ≤ oldlen)
    (hnew : newp = none ∨ newlen < sizeofSizeT) :
    mallctl st "mesh.check_period" false (some oldlen) newp newlen =
      ⟨-1, some st.meshPeriod, st, []⟩ := by
  have hok : malformedBuf false (some oldlen) = false := by
    simp [malformedBuf, Nat.not_lt_of_le hlen]
  rcases hnew with hnp | hnl
  · subst hnp
    simp [mallctl, hok]
  · rcases newp with _ | v
    · simp [mallctl, hok]
    · simp [mallctl, hok, hnl]

/-- C10 witness: reading the period with no new value supplied writes the
period and returns -1. -/
theorem mallctl_period_read_fails_witness :
    mallctl ⟨42, 0, []⟩ "mesh.check_period" false (some 8) none 0 =
      ⟨-1, some 42, ⟨42, 0, []⟩, []⟩ :=
  mallctl_period_read_fails ⟨42, 0, []⟩ 8 none 0 (by decide) (Or.inl rfl)

/-! ## Meshing engine: pairing callback, merge-set resolution, `meshLocked` -/

/-- The `meshFound` lambda in `GlobalHeap::meshAllSizeClasses`: invoked by
`method::shiftedSplitting` on each discovered pair; appends the pair to
`mergeSets` when its acceptance test passes.  The source tests
`std::get<0>(miniheaps)->isMeshingCandidate() &&
std::get<0>(miniheaps)->isMeshingCandidate()` — the first component both
times. -/
def meshFound (mergeSets : List (MiniHeap × MiniHeap))
    (miniheaps : MiniHeap × MiniHeap) : List (MiniHeap × MiniHeap) :=
  if miniheaps.1.isMeshingCandidate && miniheaps.1.isMeshingCandidate then
    mergeSets ++ [miniheaps]
  else
    mergeSets

/-- A concrete meshing candidate used as the first pair component in
counterexamples. -/
def candHeap : MiniHeap :=
  { id := 1, sizeClass := 3, maxCount := 8,
    bitmap := [true, false, false, false, false, false, false, false],
    meshed := false, meshCount := 1, spans := [10] }

/-- A concrete non-candidate (completely full, so not partially full)
used as the second pair component in counterexamples. -/
def fullHeap : MiniHeap :=
  { id := 2, sizeClass := 3, maxCount := 8,
    bitmap := [true, true, true, true, true, true, true, true],
    meshed := false, meshCount := 1, spans := [20] }

/-- C2 (the claim as stated fails on the code): the acceptance test of
`meshFound` checks the pair's first component twice and never the second,
so a pair whose second member is not a meshing candidate is still
accepted into the merge set. -/
theorem meshFound_accepts_noncandidate_second :
    fullHeap.isMeshingCandidate = false ∧
      candHeap.isMeshingCandidate = true ∧
      meshFound [] (candHeap, fullHeap) = [(candHeap, fullHeap)] := by
  refine ⟨by decide, by decide, ?_⟩
  simp [meshFound, candHeap]
  decide

/-- Modelled from the spec: `MiniHeap::consume(arenaBegin, src)` (in
`miniheap.h`, not under `src/`): copies `src`'s live objects into `dst`,
merges the (disjoint) bitmaps, folds `src`'s spans and mesh count into
`dst`, and marks `src` meshed.  Returns the updated `(dst, src)`. -/
def consume (dst src : MiniHeap) : MiniHeap × MiniHeap :=
  ({ dst with
      bitmap := List.zipWith or dst.bitmap src.bitmap,
      meshCount := dst.meshCount + src.meshCount,
      spans := dst.spans ++ src.spans },
    { src with meshed := true })

/-- The merge-set resolution loop at the end of
`GlobalHeap::meshAllSizeClasses`: for each pair, skip it entirely when
the combined mesh count exceeds `kMaxMeshes`, otherwise swap so the
member with the larger mesh count is the destination, and call
`meshLocked` on it.  Returns the (dst, src) pairs actually merged, in
order. -/
def processMergeSets : List (MiniHeap × MiniHeap) → List (MiniHeap × MiniHeap)
  | [] => []
  | p :: rest =>
    let aCount := p.1.meshCount
    let bCount := p.2.meshCount
    if kMaxMeshes < aCount + bCount then
      processMergeSets rest
    else if aCount < bCount then
      (p.2, p.1) :: processMergeSets rest
    else
      p :: processMergeSets rest

/-- C3: every merge the loop performs respects the cap: the merged pair's
combined mesh count is at most `kMaxMeshes`, so the destination produced
by `consume` has `meshCount ≤ kMaxMeshes`; and a pair whose combined mesh
count exceeds `kMaxMeshes` is skipped entirely — neither it nor its swap
is ever merged. -/
theorem processMergeSets_bounded (ms : List (MiniHeap × MiniHeap)) :
    (∀ q ∈ processMergeSets ms,
        (consume q.1 q.2).1.meshCount ≤ kMaxMeshes) ∧
      (∀ p ∈ ms, kMaxMeshes < p.1.meshCount + p.2.meshCount →
        p ∉ processMergeSets ms ∧ (p.2, p.1) ∉ processMergeSets ms) := by
  have key : ∀ q ∈ processMergeSets ms,
      q.1.meshCount + q.2.meshCount ≤ kMaxMeshes := by
    induction ms with
    | nil => intro q hq; simp [processMergeSets] at hq
    | cons p rest ih =>
      intro q hq
      by_cases hskip : kMaxMeshes < p.1.meshCount + p.2.meshCount
      · rw [processMergeSets, if_pos hskip] at hq
        exact ih q hq
      · rw [processMergeSets, if_neg hskip] at hq
        by_cases hswap : p.1.meshCount < p.2.meshCount
        · rw [if_pos hswap] at hq
          rcases List.mem_cons.mp hq with hq | hq
          · subst hq; dsimp only; omega
          · exact ih q hq
        · rw [if_neg hswap] at hq
          rcases List.mem_cons.mp hq with hq | hq
          · subst hq; omega
          · exact ih q hq
  refine ⟨fun q hq => ?_, fun p hp hbig => ?_⟩
  · have := key q hq
    simpa [consume] using this
  · obtain ⟨p1, p2⟩ := p
    dsimp only at hbig
    refine ⟨fun hmem => ?_, fun hmem => ?_⟩
    · have h2 := key (p1, p2) hmem
      dsimp only at h2
      omega
    · have h2 := key (p2, p1) hmem
      dsimp only at h2
      omega

/-- C3 witness: a merge set with one over-cap pair and one in-cap pair;
the in-cap pair's destination stays within the cap and the over-cap pair
is absent from the performed merges in both orientations. -/
theorem processMergeSets_bounded_witness :
    (∀ q ∈ processMergeSets
        [({candHeap with meshCount := 200}, {fullHeap with meshCount := 100}),
          (candHeap, fullHeap)],
        (consume q.1 q.2).1.meshCount ≤ kMaxMeshes) ∧
      (({candHeap with meshCount := 200}, {fullHeap with meshCount := 100}) ∉
          processMergeSets
            [({candHeap with meshCount := 200}, {fullHeap with meshCount := 100}),
              (candHeap, fullHeap)] ∧
        ({fullHeap with meshCount := 100}, {candHeap with meshCount := 200}) ∉
          processMergeSets
            [({candHeap with meshCount := 200}, {fullHeap with meshCount := 100}),
              (candHeap, fullHeap)]) := by
  refine ⟨(processMergeSets_bounded _).1, ?_⟩
  exact (processMergeSets_bounded _).2
    ({candHeap with meshCount := 200}, {fullHeap with meshCount := 100})
    (by simp) (by decide)

/-- Steps of the three-phase merge protocol `GlobalHeap::meshLocked`, in
trace form: `beginMesh`/`finalizeMesh` are the arena page-protection
calls (identified by destination and source span starts), `consumeStep`
the call `dst->consume(arenaBegin(), src)`, `binPostFree` the
re-evaluation of the destination's Bin tier, and `untrack` the call
`untrackMiniheapLocked(src)`. -/
inductive MeshStep where
  | beginMesh (dstSpan srcSpan : Nat)
  | consumeStep (dstId srcId : Nat)
  | finalizeMesh (dstSpan srcSpan : Nat)
  | binPostFree (sizeClass inUse : Nat)
  | untrack (srcId : Nat)
  deriving DecidableEq

/-- `MiniHeap::getSpanStart(arenaBegin())`: the MiniHeap's own span is the
first entry of its meshed-span list. -/
def MiniHeap.spanStart (mh : MiniHeap) : Nat :=
  mh.spans.headD 0

/-- `MiniHeap::forEachMeshed(visitor)` specialised to event-producing
visitors: visits each folded span in order, collecting one event per
span, and stops early when the visitor returns `true`. -/
def forEachMeshedEv (spans : List Nat) (visit : Nat → MeshStep × Bool) : List MeshStep :=
  match spans with
  | [] => []
  | s :: rest =>
    let r := visit s
    if r.2 then [r.1] else r.1 :: forEachMeshedEv rest visit

/-- A visitor that never asks to stop visits every span: the collected
events are the map of the visitor over the span list. -/
theorem forEachMeshedEv_no_stop (spans : List Nat) (f : Nat → MeshStep) :
    forEachMeshedEv spans (fun s => (f s, false)) = spans.map f := by
  induction spans with
  | nil => rfl
  | cons s rest ih => simp [forEachMeshedEv, ih]

/-- `GlobalHeap::meshLocked(dst, src)`: mark every span folded into `src`
read-only (`beginMesh`, visitor never stops), consume `src` into `dst`,
release and re-protect every span folded into `src` (`finalizeMesh`),
re-evaluate `dst`'s Bin tier with its post-consume occupancy, and untrack
`src`.  Returns the updated `(dst, src)` and the step trace. -/
def meshLocked (dst src : MiniHeap) : (MiniHeap × MiniHeap) × List MeshStep :=
  let dstSpanStart := dst.spanStart
  let beginEvs := forEachMeshedEv src.spans (fun s => (MeshStep.beginMesh dstSpanStart s, false))
  let cs := consume dst src
  let finalEvs := forEachMeshedEv cs.2.spans (fun s => (MeshStep.finalizeMesh dstSpanStart s, false))
  ((cs.1, cs.2),
    beginEvs ++ [MeshStep.consumeStep dst.id src.id] ++ finalEvs ++
      [MeshStep.binPostFree cs.1.sizeClass cs.1.inUseCount, MeshStep.untrack src.id])

/-- C4: the steps of `meshLocked(dst, src)` occur in exactly this order:
one `beginMesh` per span folded into `src`, then the consume (after
which `src` is meshed), then one `finalizeMesh` per span folded into
`src`, then the Bin-tier re-evaluation of `dst`, and finally the untrack
of `src`. -/
theorem meshLocked_order (dst src : MiniHeap) :
    (meshLocked dst src).2 =
        src.spans.map (MeshStep.beginMesh dst.spanStart) ++
          [MeshStep.consumeStep dst.id src.id] ++
          src.spans.map (MeshStep.finalizeMesh dst.spanStart) ++
          [MeshStep.binPostFree (consume dst src).1.sizeClass
              (consume dst src).1.inUseCount,
            MeshStep.untrack src.id] ∧
      ((meshLocked dst src).1.2).isMeshed = true := by
  constructor
  · show forEachMeshedEv src.spans _ ++ _ ++ forEachMeshedEv (consume dst src).2.spans _ ++ _ = _
    rw [forEachMeshedEv_no_stop, forEachMeshedEv_no_stop]
    rfl
  · rfl

/-! ## `GlobalHeap::meshAllSizeClasses` -/

/-- Events of a mesh pass: the `Super::scavenge(false)` calls, the
per-bin `flushBinLocked(i)` calls, the per-bin invocation of
`method::shiftedSplitting` on bin `i` (the pairing attempt), and the
`meshLocked` merges (identified by the ids of destination and source). -/
inductive MeshEvent where
  | scavengeEv
  | flushBinEv (i : Nat)
  | splittingEv (i : Nat)
  | meshEv (dstId srcId : Nat)
  deriving DecidableEq

/-- Inputs of a mesh pass: the `_lastMeshEffective` flag, the result of
`Super::aboveMeshThreshold()` (whether total meshed memory is above the
configured threshold — the arena's accounting is outside the provided
source), the pairs `method::shiftedSplitting` emits for each bin (the
pairing algorithm lives in `meshing.h`), and the `_stats.meshCount`
counter. -/
structure MeshPassInput where
  lastMeshEffective : Bool
  aboveMeshThreshold : Bool
  binPairs : List (List (MiniHeap × MiniHeap))
  meshCountStat : Nat
  deriving DecidableEq

/-- Observable outcome of a mesh pass: the final `_lastMeshEffective`,
the final `_stats.meshCount`, and the event trace. -/
structure MeshPassOutput where
  lastMeshEffective : Bool
  meshCountStat : Nat
  events : List MeshEvent
  deriving DecidableEq

/-- `GlobalHeap::meshAllSizeClasses()`: scavenge; return if the last pass
was ineffective; return if total meshed memory is above the threshold;
flush every bin; run shifted splitting on every bin, accumulating the
merge set through `meshFound`; record effectiveness (`> 256` pairs);
if the merge set is empty, scavenge and return; otherwise bump the mesh
counter, resolve and perform the merges (`processMergeSets`), and
scavenge. -/
def meshAllSizeClasses (inp : MeshPassInput) : MeshPassOutput :=
  if !inp.lastMeshEffective then
    ⟨inp.lastMeshEffective, inp.meshCountStat, [MeshEvent.scavengeEv]⟩
  else if inp.aboveMeshThreshold then
    ⟨inp.lastMeshEffective, inp.meshCountStat, [MeshEvent.scavengeEv]⟩
  else
    let n := inp.binPairs.length
    let flushEvs := (List.range n).map MeshEvent.flushBinEv
    let splitEvs := (List.range n).map MeshEvent.splittingEv
    let mergeSets := inp.binPairs.foldl (fun acc pairs => pairs.foldl meshFound acc) []
    let eff := decide (256 < mergeSets.length)
    if mergeSets.isEmpty then
      ⟨eff, inp.meshCountStat,
        [MeshEvent.scavengeEv] ++ flushEvs ++ splitEvs ++ [MeshEvent.scavengeEv]⟩
    else
      ⟨eff, inp.meshCountStat + mergeSets.length,
        [MeshEvent.scavengeEv] ++ flushEvs ++ splitEvs ++
          (processMergeSets mergeSets).map (fun q => MeshEvent.meshEv q.1.id q.2.id) ++
          [MeshEvent.scavengeEv]⟩

/-- A mesh-pass input whose last pass was effective and whose total
meshed memory is below the threshold, with one bin holding one pair. -/
def belowThresholdInput : MeshPassInput :=
  ⟨true, false, [[(candHeap, fullHeap)]], 0⟩

/-- C1 counterexample: with `_lastMeshEffective` true and total meshed
memory below the configured threshold (`aboveMeshThreshold` false), the
pass does not return early — it runs the pairing on bin 0 and even
performs a merge — refuting the claim that a pass below the threshold
skips pairing and merging. -/
theorem meshAllSizeClasses_below_threshold_pairs :
    (belowThresholdInput.lastMeshEffective = true ∧
        belowThresholdInput.aboveMeshThreshold = false) ∧
      MeshEvent.splittingEv 0 ∈ (meshAllSizeClasses belowThresholdInput).events ∧
      MeshEvent.meshEv 1 2 ∈ (meshAllSizeClasses belowThresholdInput).events := by
  decide

/-- C1 (amended): the pass is throttled by two gates checked in order —
it returns right after the initial scavenge, with no flush, no pairing
and no merging, when `_lastMeshEffective` is false, and otherwise when
total meshed memory is already above the configured threshold. -/
theorem meshAllSizeClasses_gates (inp : MeshPassInput)
    (h : inp.lastMeshEffective = false ∨ inp.aboveMeshThreshold = true) :
    (meshAllSizeClasses inp).events = [MeshEvent.scavengeEv] := by
  rcases h with h | h
  · simp [meshAllSizeClasses, h]
  · by_cases he : inp.lastMeshEffective
    · simp [meshAllSizeClasses, he, h]
    · simp [meshAllSizeClasses, he]

/-- C1 witness: each gate evaluated on a concrete input with a non-empty
bin: both traces stop at the initial scavenge. -/
theorem meshAllSizeClasses_gates_witness :
    (meshAllSizeClasses ⟨false, false, [[(candHeap, fullHeap)]], 0⟩).events =
        [MeshEvent.scavengeEv] ∧
      (meshAllSizeClasses ⟨true, true, [[(candHeap, fullHeap)]], 0⟩).events =
        [MeshEvent.scavengeEv] :=
  ⟨meshAllSizeClasses_gates _ (Or.inl rfl), meshAllSizeClasses_gates _ (Or.inr rfl)⟩

end MeshVerify
